import Mathlib

/-!
Verification of the combustion time-step orchestrator in
src/nonUniform-Bunsen100/solver_class_flame.py.

Shallow embedding conventions:
* A centered scalar field is a function from the row index (axis 1 of the
  numpy array, the y axis) and the column index (axis 2, the x axis) to an
  exact rational value; the batch axis and the channel axis of the numpy
  arrays both have size one and are dropped.  Machine floats are modelled
  by exact rational arithmetic.
* The staggered velocity carries its two component arrays: data[0] is the
  y component (shape res+1 by res), data[1] is the x component (shape res
  by res+1), as noted in the source comments.
* External collaborators (semi-Lagrangian advection, diffusion, the
  buoyancy interpolation onto the staggered grid, and the pressure
  projection divergence_free) are black-box operators per the spec; the
  step is parameterised over them, and theorems quantify over all of them.
* The Python call mutates the attribute solve_info of the input object;
  the embedding therefore returns both the new state and the input object
  as it stands after the call.
-/

set_option linter.unusedVariables false

/-- A centered scalar field: row index, then column index, to value. -/
def CField : Type := Nat → Nat → ℚ

/-- The staggered velocity field as its two component arrays: y is data[0],
x is data[1] of the source StaggeredGrid. -/
structure Vel where
  y : CField
  x : CField

/-- The external 3D roughness array, indexed layer, row, column. -/
def Rough : Type := Nat → Nat → Nat → ℚ

/-- The dictionary returned by divergence_free with return_info=True:
keys pressure_c, iterations, divergence. -/
structure SolveInfo where
  pressure_c : CField
  iterations : Nat
  divergence : CField

/-- The SpFluid state: the struct variables and constants of the Python
class, together with the plain attribute solve_info set in its init. -/
structure SpFluid where
  velocity : Vel
  temperature : CField
  density : CField
  pressure : CField
  rd : CField
  Yf : CField
  Yo : CField
  Wt : CField
  Wkf : CField
  Wko : CField
  amp : ℚ
  eq : ℚ
  buoyancy_factor : ℚ
  age : ℚ
  solve_info : Option SolveInfo

/-- Result of one step call: the freshly constructed state returned by
copied_with, and the input object as it stands after the call (the source
assigns fluid.solve_info inside step, mutating the input). -/
structure StepResult where
  result : SpFluid
  inputAfter : SpFluid

/-- The external collaborators consumed by the step: advection, diffusion,
the buoyancy force term interpolated onto the staggered grid, and the
pressure projection divergence_free (domain, obstacles and the pressure
solver are folded into the instance, as they are out of scope). -/
structure Collab where
  advectVel : Vel → Vel → ℚ → Vel
  diffuseVel : Vel → ℚ → Nat → Vel
  buoyancy : CField → ℚ × ℚ → ℚ → ℚ → Vel
  advectC : CField → Vel → ℚ → CField
  diffuseC : CField → ℚ → Nat → CField
  project : Vel → CField → Vel × SolveInfo

/- Module-level fuel constants, methane branch (fuel_type = 'methane'). -/

def A_m : ℚ := 5.1e4
def n_m : ℚ := 0
def E_m : ℚ := 93600
def hk : ℚ := 5.01e7
def cp : ℚ := 1450
def Wf : ℚ := 0.016
def Wo : ℚ := 0.032
def Wp : ℚ := 0.062
def Vf : ℚ := -1
def Vo : ℚ := -2

/-- Mixture-fraction bounds; the source body fixes eq_min = 0.8 and
eq_max = 1.0 and never reads the argument. -/
def get_min_max_zf_zo (eqr : ℚ) : ℚ × ℚ × ℚ × ℚ :=
  let eq_min : ℚ := 0.8
  let eq_max : ℚ := 1.0
  let Zf_min : ℚ := 1/(1 + (4*4.29/eq_min))
  let Zf_max : ℚ := 1/(1 + (4*4.29/eq_max))
  let Zo_min : ℚ := 1 - Zf_max
  let Zo_max : ℚ := 1 - Zf_min
  (Zf_min, Zf_max, Zo_min, Zo_max)

/-- Boundary vector of fuel fractions from a normalized roughness field
(present in the source, not called from step). -/
def get_zf_bc_vector (rd_yk : CField) (er : ℚ) : CField :=
  let z := get_min_max_zf_zo er
  fun i j => rd_yk i j * (z.2.1 - z.1) + z.1

/-- Index pairs of the res by res roughness slice. -/
def sliceIdx (res : Nat) : List (Nat × Nat) :=
  (List.range res).flatMap fun a => (List.range res).map fun b => (a, b)

/-- np.min of slice 20 of the roughness array (res by res). -/
def sliceMin (rd : Rough) (res : Nat) : ℚ :=
  (sliceIdx res).foldl (fun m ab => min m (rd 20 ab.1 ab.2)) (rd 20 0 0)

/-- np.max of slice 20 of the roughness array (res by res). -/
def sliceMax (rd : Rough) (res : Nat) : ℚ :=
  (sliceIdx res).foldl (fun m ab => max m (rd 20 ab.1 ab.2)) (rd 20 0 0)

/-- The roughness normalization rd_yk = (s - min s) / (max s - min s) of
slice 20.  When the slice is constant, numpy produces NaN with a warning
and no exception; the rational embedding yields 0 there, and the value is
never read downstream, so the distinction cannot reach the output. -/
def normalize20 (rd : Rough) (res : Nat) : CField :=
  fun a b => (rd 20 a b - sliceMin rd res) / (sliceMax rd res - sliceMin rd res)

/-- The degenerate-normalization condition: slice 20 has zero range. -/
def rdDegenerate (rd : Rough) (res : Nat) : Prop :=
  sliceMax rd res = sliceMin rd res

/-- Boundary values for the velocity y component (VelocityBoundary_y).
The source writes absolute(rd_array[0:1, 0:res, 0]) * 4 + 6 into row 0,
columns 0 to res-1: layer 0, column 0 of the RAW roughness array, not the
normalized slice 20.  The second write targets columns res to res of an
array with res columns, an empty numpy slice, hence a no-op. -/
def velBCy (rd_array : Rough) (res : Nat) : CField :=
  fun i j => if i = 0 ∧ j < res then |rd_array 0 j 0| * 4 + 6 else 0

/-- Mask for the velocity y component: zero on the bottom row, zero on
column 0 and on columns res-1 and beyond for rows at or above res/4,
one elsewhere (VelocityBoundary_y). -/
def velBCyMask (res : Nat) : CField :=
  fun i j => if i = 0 then 0
    else if res / 4 ≤ i ∧ (j = 0 ∨ res - 1 ≤ j) then 0 else 1

/-- Values array of VelocityBoundary_x: ones with the bottom row zeroed.
The step multiplies only by the mask; this values array is unused there. -/
def velBCx : CField := fun i _ => if i = 0 then 0 else 1

/-- Mask of VelocityBoundary_x: an identical copy of the values array. -/
def velBCxMask : CField := velBCx

/-- The velocity y boundary update of the step: cy * velBCyMask + velBCy. -/
def applyBCy (rd_array : Rough) (res : Nat) (cy : CField) : CField :=
  fun i j => cy i j * velBCyMask res i j + velBCy rd_array res i j

/-- The velocity x boundary update of the step: cx * velBCxMask. -/
def applyBCx (cx : CField) : CField :=
  fun i j => cx i j * velBCxMask i j

/-- Fuel-fraction mask: zero on the bottom row, one elsewhere. -/
def yfMask : CField := fun i _ => if i = 0 then 0 else 1

/-- Fuel-fraction boundary values: Zf_max on the bottom row, zero elsewhere. -/
def yfBC (zfmx : ℚ) : CField := fun i _ => if i = 0 then zfmx else 0

/-- Oxidizer-fraction mask: zero on the bottom row, one elsewhere. -/
def yoMask : CField := fun i _ => if i = 0 then 0 else 1

/-- Oxidizer boundary values: Zo_min on the bottom row, zero elsewhere. -/
def yoBC (zomn : ℚ) : CField := fun i _ => if i = 0 then zomn else 0

/-- The species fuel boundary update of the step: Yf * yf_mask + yf. -/
def applyYfBC (zfmx : ℚ) (f : CField) : CField :=
  fun i j => f i j * yfMask i j + yfBC zfmx i j

/-- The species oxidizer boundary update of the step: Yo * yo_mask + yo. -/
def applyYoBC (zomn : ℚ) (f : CField) : CField :=
  fun i j => f i j * yoMask i j + yoBC zomn i j

/-- Temperature mask: zero on rows 0 and res-1, one elsewhere. -/
def tempMask (res : Nat) : CField :=
  fun i _ => if i = 0 ∨ i = res - 1 then 0 else 1

/-- Temperature boundary values: the source writes 800 into row 0 and then
2000 into row res-1, so row res-1 wins when the two coincide. -/
def tempBC (res : Nat) : CField :=
  fun i _ => if i = res - 1 then 2000 else if i = 0 then 800 else 0

/-- The temperature boundary update of the step:
temperature * temp_mask + tempBC. -/
def applyTempBC (res : Nat) (t : CField) : CField :=
  fun i j => t i j * tempMask res i j + tempBC res i j

/-- The state equation of the step:
density = (1/8.314) * pressure * ((Yf/Wf + Yo/Wo + (1-Yf-Yo)/Wp) * T)^-1,
written exactly as the source does with reciprocal molar masses. -/
def stateDensity (pressure temperature Yf Yo : CField) : CField :=
  fun i j =>
    (1.0 / 8.314) * pressure i j *
      (((Yf i j * (1 / Wf) + Yo i j * (1 / Wo) +
         (1 - Yf i j - Yo i j) * (1 / Wp)) * temperature i j)⁻¹)

/-- Pointwise sum of two staggered fields (grid addition). -/
def velAdd (a b : Vel) : Vel :=
  ⟨fun i j => a.y i j + b.y i j, fun i j => a.x i j + b.x i j⟩

/-- One call of SpEnergy.step, mirroring the source line by line.  The
gravity tensor is passed through to the buoyancy collaborator; obstacles
and the pressure solver live inside the project collaborator. -/
def step (c : Collab) (fluid : SpFluid) (rd_array : Rough) (res : Nat)
    (dt : ℚ) (gravity : ℚ × ℚ)
    (density_effects : List (CField → ℚ → CField))
    (velocity_effects : List (Vel → ℚ → Vel)) : StepResult :=
  let diffusion_substeps : Nat := 1
  let velocity := fluid.velocity
  let temperature := fluid.temperature
  let pressure := fluid.pressure
  let Yf := fluid.Yf
  let Yo := fluid.Yo
  let wt := fluid.Wt
  let wkf := fluid.Wkf
  let wko := fluid.Wko
  let z := get_min_max_zf_zo fluid.eq
  let Zf_max := z.2.1
  let Zo_min := z.2.2.1
  let rd_yk := normalize20 rd_array res
  let density := stateDensity pressure temperature Yf Yo
  let velocity := c.advectVel velocity velocity dt
  let velocity := c.diffuseVel velocity (0.1 * dt) diffusion_substeps
  let velocity := velAdd velocity (c.buoyancy density gravity fluid.buoyancy_factor dt)
  let density := density_effects.foldl (fun d e => e d dt) density
  let velocity := velocity_effects.foldl (fun v e => e v dt) velocity
  let pr := c.project velocity density
  let velocity := pr.1
  let info := pr.2
  let cy := applyBCy rd_array res velocity.y
  let cx := applyBCx velocity.x
  let velocity : Vel := ⟨cy, cx⟩
  let pressure : CField := fun i j => pressure i j + info.pressure_c i j
  let temperature := c.advectC temperature velocity dt
  let temperature := c.diffuseC temperature (dt * 0.1) diffusion_substeps
  let temperature : CField :=
    fun i j => temperature i j - wt i j * dt * ((density i j * cp)⁻¹)
  let Yf := c.advectC Yf velocity dt
  let Yf := c.diffuseC Yf (0.1 * dt) diffusion_substeps
  let Yf : CField := fun i j => Yf i j + wkf i j * dt * ((density i j)⁻¹)
  let Yo := c.advectC Yo velocity dt
  let Yo := c.diffuseC Yo (0.1 * dt) diffusion_substeps
  let Yo : CField := fun i j => Yo i j + wko i j * dt * ((density i j)⁻¹)
  let Yf := applyYfBC Zf_max Yf
  let Yo := applyYoBC Zo_min Yo
  let temperature := applyTempBC res temperature
  let inputAfter : SpFluid := { fluid with solve_info := some info }
  let result : SpFluid :=
    { inputAfter with
        velocity := velocity, temperature := temperature, density := density,
        pressure := pressure, Yf := Yf, Yo := Yo, Wt := wt, Wkf := wkf,
        Wko := wko, age := fluid.age + dt }
  ⟨result, inputAfter⟩

/- Concrete fixtures used by witnesses and counterexamples. -/

/-- The all-zero centered field. -/
def zeroField : CField := fun _ _ => 0

/-- A constant centered field. -/
def constField (q : ℚ) : CField := fun _ _ => q

/-- Identity collaborators: transport returns its input untouched, the
buoyancy term is zero, and the projection returns the velocity with a
trivial info record. -/
def trivialCollab : Collab where
  advectVel := fun v _ _ => v
  diffuseVel := fun v _ _ => v
  buoyancy := fun _ _ _ _ => ⟨zeroField, zeroField⟩
  advectC := fun t _ _ => t
  diffuseC := fun t _ _ => t
  project := fun v _ => (v, ⟨zeroField, 0, zeroField⟩)

/-- The uniform scenario state of the spec: T = 800, Yf = 1, Yo = 0,
pressure = 101325, zero velocity, eq = 1. -/
def fluid0 : SpFluid where
  velocity := ⟨zeroField, zeroField⟩
  temperature := constField 800
  density := zeroField
  pressure := constField 101325
  rd := zeroField
  Yf := constField 1
  Yo := zeroField
  Wt := zeroField
  Wkf := zeroField
  Wko := zeroField
  amp := 1
  eq := 1
  buoyancy_factor := 0
  age := 0
  solve_info := none

/-- A state with an out-of-range fuel fraction (Yf = 2 everywhere). -/
def fluidBad : SpFluid := { fluid0 with Yf := constField 2 }

/-- A roughness array whose layer 0 is the constant 5 and whose other
layers hold row + column, so slice 20 is not constant. -/
def rough6 : Rough := fun l a b => if l = 0 then 5 else (a : ℚ) + (b : ℚ)

/-- The constant roughness array: every slice is uniform. -/
def roughConst : Rough := fun _ _ _ => 1

/- Claim theorems. -/

/-- Claim C4: get_min_max_zf_zo returns the fixed tuple with
Zf_min = 1/(1 + 4*4.29/0.8), Zf_max = 1/(1 + 4*4.29/1.0),
Zo_min = 1 - Zf_max, Zo_max = 1 - Zf_min, for every argument,
and so does not depend on its eq argument. -/
theorem C4_mixture_bounds_constant :
    (∀ eqr : ℚ, get_min_max_zf_zo eqr =
      (1/(1 + 4*4.29/0.8), 1/(1 + 4*4.29/1.0),
       1 - 1/(1 + 4*4.29/1.0), 1 - 1/(1 + 4*4.29/0.8))) ∧
    (∀ e1 e2 : ℚ, get_min_max_zf_zo e1 = get_min_max_zf_zo e2) :=
  ⟨fun _ => rfl, fun _ _ => rfl⟩

/-- Claim C5: with positive pressure and temperature and admissible mass
fractions, the state-equation density is strictly positive at every cell
(finiteness is automatic in the exact rational embedding). -/
theorem C5_density_positive (pressure temperature Yf Yo : CField)
    (i j : Nat)
    (hp : 0 < pressure i j) (ht : 0 < temperature i j)
    (hf0 : 0 ≤ Yf i j) (hf1 : Yf i j ≤ 1)
    (ho0 : 0 ≤ Yo i j) (ho1 : Yo i j ≤ 1)
    (hsum : Yf i j + Yo i j ≤ 1) :
    0 < stateDensity pressure temperature Yf Yo i j := by
  unfold stateDensity Wf Wo Wp
  have hmix : (0:ℚ) < Yf i j * (1 / 0.016) + Yo i j * (1 / 0.032) +
      (1 - Yf i j - Yo i j) * (1 / 0.062) := by
    norm_num
    nlinarith
  have hmt : (0:ℚ) < (Yf i j * (1 / 0.016) + Yo i j * (1 / 0.032) +
      (1 - Yf i j - Yo i j) * (1 / 0.062)) * temperature i j :=
    mul_pos hmix ht
  have h1 : (0:ℚ) < (1.0 / 8.314) * pressure i j := by
    apply mul_pos _ hp
    norm_num
  exact mul_pos h1 (inv_pos.mpr hmt)

/-- Witness for C5 at the uniform scenario values. -/
theorem C5_density_positive_witness :
    (0:ℚ) < 101325 ∧ (0:ℚ) < 800 ∧
    0 < stateDensity (constField 101325) (constField 800)
        (constField 1) (constField 0) 0 0 :=
  ⟨by decide, by decide,
   C5_density_positive (constField 101325) (constField 800)
     (constField 1) (constField 0) 0 0
     (by simp [constField]) (by simp [constField]) (by simp [constField])
     (by simp [constField]) (by simp [constField]) (by simp [constField])
     (by simp [constField])⟩

/-- Claim C1: with an empty density_effects list, the density field of the
returned state is the ideal-gas formula with the methane molar masses,
evaluated on the pressure, temperature, Yf and Yo of the input state. -/
theorem C1_density_from_input_state (c : Collab) (fluid : SpFluid)
    (rd_array : Rough) (res : Nat) (dt : ℚ) (gravity : ℚ × ℚ)
    (velocity_effects : List (Vel → ℚ → Vel)) (i j : Nat) :
    (step c fluid rd_array res dt gravity [] velocity_effects).result.density i j =
      (1 / 8.314) * fluid.pressure i j *
        (((fluid.Yf i j / Wf + fluid.Yo i j / Wo +
           (1 - fluid.Yf i j - fluid.Yo i j) / Wp) *
          fluid.temperature i j)⁻¹) := by
  show stateDensity fluid.pressure fluid.temperature fluid.Yf fluid.Yo i j = _
  unfold stateDensity
  have h : fluid.Yf i j * (1 / Wf) + fluid.Yo i j * (1 / Wo) +
      (1 - fluid.Yf i j - fluid.Yo i j) * (1 / Wp) =
      fluid.Yf i j / Wf + fluid.Yo i j / Wo +
      (1 - fluid.Yf i j - fluid.Yo i j) / Wp := by
    ring
  rw [h]
  norm_num

/-- Claim C2: for dt at or above zero, the returned Yf equals Zf_max and
the returned Yo equals Zo_min at every cell of the bottom row, with the
bounds computed by get_min_max_zf_zo from the eq of the state, whatever
values the fields held before the boundary re-application. -/
theorem C2_species_bottom_row (c : Collab) (fluid : SpFluid)
    (rd_array : Rough) (res : Nat) (dt : ℚ) (gravity : ℚ × ℚ)
    (density_effects : List (CField → ℚ → CField))
    (velocity_effects : List (Vel → ℚ → Vel))
    (hdt : 0 ≤ dt) (j : Nat) (hj : j < res) :
    (step c fluid rd_array res dt gravity density_effects
        velocity_effects).result.Yf 0 j =
      (get_min_max_zf_zo fluid.eq).2.1 ∧
    (step c fluid rd_array res dt gravity density_effects
        velocity_effects).result.Yo 0 j =
      (get_min_max_zf_zo fluid.eq).2.2.1 := by
  constructor
  · simp [step, applyYfBC, yfMask, yfBC]
  · simp [step, applyYoBC, yoMask, yoBC]

/-- Witness for C2 on the uniform scenario with identity collaborators. -/
theorem C2_species_bottom_row_witness :
    (0:ℚ) ≤ 1 ∧ (0:Nat) < 2 ∧
    ((step trivialCollab fluid0 rough6 2 1 (0, 0) [] []).result.Yf 0 0 =
       (get_min_max_zf_zo fluid0.eq).2.1 ∧
     (step trivialCollab fluid0 rough6 2 1 (0, 0) [] []).result.Yo 0 0 =
       (get_min_max_zf_zo fluid0.eq).2.2.1) :=
  ⟨by decide, by decide,
   C2_species_bottom_row trivialCollab fluid0 rough6 2 1 (0, 0) [] []
     (by decide) 0 (by decide)⟩

/-- Claim C3: on a grid with res at least 2, the returned temperature is
800 on the bottom row and 2000 on row res-1, and the returned x velocity
is 0 on its bottom row, for every input state and every choice of the
advection, diffusion and projection collaborators. -/
theorem C3_dirichlet_rows (c : Collab) (fluid : SpFluid)
    (rd_array : Rough) (res : Nat) (dt : ℚ) (gravity : ℚ × ℚ)
    (density_effects : List (CField → ℚ → CField))
    (velocity_effects : List (Vel → ℚ → Vel))
    (hres : 2 ≤ res) (j : Nat) (hj : j < res) :
    (step c fluid rd_array res dt gravity density_effects
        velocity_effects).result.temperature 0 j = 800 ∧
    (step c fluid rd_array res dt gravity density_effects
        velocity_effects).result.temperature (res - 1) j = 2000 ∧
    (∀ k : Nat, (step c fluid rd_array res dt gravity density_effects
        velocity_effects).result.velocity.x 0 k = 0) := by
  have h1 : res - 1 ≠ 0 := by omega
  refine ⟨?_, ?_, fun k => ?_⟩
  · simp [step, applyTempBC, tempMask, tempBC, h1, Ne.symm h1]
  · simp [step, applyTempBC, tempMask, tempBC]
  · simp [step, applyBCx, velBCxMask, velBCx]

/-- Witness for C3 on the uniform scenario with identity collaborators. -/
theorem C3_dirichlet_rows_witness :
    (2:Nat) ≤ 2 ∧ (0:Nat) < 2 ∧
    ((step trivialCollab fluid0 rough6 2 1 (0, 0) [] []).result.temperature 0 0 = 800 ∧
     (step trivialCollab fluid0 rough6 2 1 (0, 0) [] []).result.temperature (2 - 1) 0 = 2000 ∧
     (∀ k : Nat, (step trivialCollab fluid0 rough6 2 1 (0, 0) [] []).result.velocity.x 0 k = 0)) :=
  ⟨by decide, by decide,
   C3_dirichlet_rows trivialCollab fluid0 rough6 2 1 (0, 0) [] []
     (by decide) 0 (by decide)⟩

/-- Claim C7: each boundary update used by the step, the velocity y update
cy * velBCyMask + velBCy, the velocity x update cx * velBCxMask, the two
species updates and the temperature update, is idempotent: applying it
twice agrees with applying it once at every point, for every field. -/
theorem C7_boundary_updates_idempotent (rd_array : Rough) (res : Nat)
    (zfmx zomn : ℚ) (cy cx yfF yoF t : CField) (i j : Nat) :
    applyBCy rd_array res (applyBCy rd_array res cy) i j =
      applyBCy rd_array res cy i j ∧
    applyBCx (applyBCx cx) i j = applyBCx cx i j ∧
    applyYfBC zfmx (applyYfBC zfmx yfF) i j = applyYfBC zfmx yfF i j ∧
    applyYoBC zomn (applyYoBC zomn yoF) i j = applyYoBC zomn yoF i j ∧
    applyTempBC res (applyTempBC res t) i j = applyTempBC res t i j := by
  refine ⟨?_, ?_, ?_, ?_, ?_⟩ <;>
    simp only [applyBCy, applyBCx, applyYfBC, applyYoBC, applyTempBC,
      velBCy, velBCyMask, velBCx, velBCxMask, yfMask, yfBC, yoMask, yoBC,
      tempMask, tempBC] <;>
    split_ifs <;> first | ring1 | (exfalso; omega)

/-- Counterexample for C6: on a concrete roughness array the value the
step writes at the bottom boundary of the velocity y component is 26,
which is not of the form abs(rd_yk) * 4 + 6 for any entry rd_yk of the
normalized slice 20 (those values all lie between 6 and 10): the source
reads the raw layer 0 of the roughness array there, not slice 20. -/
theorem C6_counterexample :
    (step trivialCollab fluid0 rough6 2 1 (0, 0) [] []).result.velocity.y 0 0 = 26 ∧
    ∀ a b : Nat, a < 2 → b < 2 →
      ¬ (|normalize20 rough6 2 a b| * 4 + 6 = 26) := by
  constructor
  · simp [step, applyBCy, velBCyMask, velBCy, trivialCollab, fluid0,
      rough6, zeroField]
    norm_num
  · have hidx : sliceIdx 2 = [(0, 0), (0, 1), (1, 0), (1, 1)] := rfl
    have hmin : sliceMin rough6 2 = 0 := by
      rw [sliceMin, hidx]
      norm_num [rough6, min_def]
    have hmax : sliceMax rough6 2 = 2 := by
      rw [sliceMax, hidx]
      norm_num [rough6, max_def]
    intro a b ha hb
    have hval : normalize20 rough6 2 a b = ((a : ℚ) + (b : ℚ)) / 2 := by
      simp [normalize20, hmin, hmax, rough6]
    rw [hval, abs_of_nonneg (by positivity)]
    interval_cases a <;> interval_cases b <;> norm_num

/-- Claim C6 as amended: the values written at the bottom boundary of the
velocity y component are abs(rd_array[0, j, 0]) * 4 + 6, read from the
raw layer 0 of the roughness array; the normalized slice 20 is computed
by the step but not used in these boundary values. -/
theorem C6_bottom_inflow_from_raw_layer0 (c : Collab) (fluid : SpFluid)
    (rd_array : Rough) (res : Nat) (dt : ℚ) (gravity : ℚ × ℚ)
    (density_effects : List (CField → ℚ → CField))
    (velocity_effects : List (Vel → ℚ → Vel))
    (j : Nat) (hj : j < res) :
    (step c fluid rd_array res dt gravity density_effects
        velocity_effects).result.velocity.y 0 j =
      |rd_array 0 j 0| * 4 + 6 := by
  simp [step, applyBCy, velBCyMask, velBCy, hj]

/-- Witness for the amended C6 at a concrete input. -/
theorem C6_bottom_inflow_from_raw_layer0_witness :
    (0:Nat) < 2 ∧
    (step trivialCollab fluid0 rough6 2 1 (0, 0) [] []).result.velocity.y 0 0 =
      |rough6 0 0 0| * 4 + 6 :=
  ⟨by decide,
   C6_bottom_inflow_from_raw_layer0 trivialCollab fluid0 rough6 2 1 (0, 0)
     [] [] 0 (by decide)⟩

/-- Helper: the step reads the roughness array only through the velocity y
boundary values (the normalized slice 20 is bound and never used), so two
arrays with the same velBCy give identical step results. -/
theorem step_roughness_congr (c : Collab) (fluid : SpFluid)
    (rd1 rd2 : Rough) (res : Nat) (dt : ℚ) (gravity : ℚ × ℚ)
    (density_effects : List (CField → ℚ → CField))
    (velocity_effects : List (Vel → ℚ → Vel))
    (h : velBCy rd1 res = velBCy rd2 res) :
    step c fluid rd1 res dt gravity density_effects velocity_effects =
      step c fluid rd2 res dt gravity density_effects velocity_effects := by
  have h2 : applyBCy rd1 res = applyBCy rd2 res := by
    funext f i j
    simp only [applyBCy, h]
  simp only [step, h2]

/-- Counterexample for C8: the constant roughness array makes the slice 20
normalization degenerate (zero range), yet the step raises nothing: it
returns a complete state, here with the boundary temperature 800 in place.
The source has no raise; numpy only warns and stores NaN in the unused
rd_yk variable. -/
theorem C8_counterexample :
    rdDegenerate roughConst 2 ∧
    (step trivialCollab fluid0 roughConst 2 1 (0, 0) [] []).result.temperature 0 0 = 800 := by
  constructor
  · unfold rdDegenerate
    have hidx : sliceIdx 2 = [(0, 0), (0, 1), (1, 0), (1, 1)] := rfl
    rw [sliceMax, sliceMin, hidx]
    norm_num [roughConst, min_def, max_def]
  · simp [step, applyTempBC, tempMask, tempBC]

/-- Claim C8 as amended: with a constant slice 20 the normalization is
degenerate, but the step does not raise: it returns a complete state, and
since the normalized slice is never read, the returned state coincides
with the one obtained after replacing slice 20 by arbitrary values, so no
degenerate value propagates into the returned state. -/
theorem C8_degenerate_slice_harmless (c : Collab) (fluid : SpFluid)
    (rd_array : Rough) (res : Nat) (dt : ℚ) (gravity : ℚ × ℚ)
    (density_effects : List (CField → ℚ → CField))
    (velocity_effects : List (Vel → ℚ → Vel))
    (hconst : ∀ a b : Nat, rd_array 20 a b = rd_array 20 0 0)
    (g : Nat → Nat → ℚ) :
    step c fluid rd_array res dt gravity density_effects velocity_effects =
      step c fluid (fun l a b => if l = 20 then g a b else rd_array l a b)
        res dt gravity density_effects velocity_effects := by
  apply step_roughness_congr
  funext i j
  simp [velBCy]

/-- Witness for the amended C8 at the constant roughness array. -/
theorem C8_degenerate_slice_harmless_witness :
    (∀ a b : Nat, roughConst 20 a b = roughConst 20 0 0) ∧
    step trivialCollab fluid0 roughConst 2 1 (0, 0) [] [] =
      step trivialCollab fluid0
        (fun l a b => if l = 20 then (a : ℚ) * b else roughConst l a b)
        2 1 (0, 0) [] [] :=
  ⟨fun _ _ => rfl,
   C8_degenerate_slice_harmless trivialCollab fluid0 roughConst 2 1 (0, 0)
     [] [] (fun _ _ => rfl) (fun a b => (a : ℚ) * b)⟩

/-- Counterexample for C9: with dt = -1 (non-positive) and a fuel fraction
of 2 everywhere (outside [0,1]), the step does not reject the input: it
carries out the whole sequence and returns a state whose age moved by dt
and whose Dirichlet temperature row was written. -/
theorem C9_counterexample :
    (step trivialCollab fluidBad rough6 2 (-1) (0, 0) [] []).result.age =
      fluidBad.age + (-1) ∧
    (step trivialCollab fluidBad rough6 2 (-1) (0, 0) [] []).result.temperature 0 0 = 800 := by
  constructor
  · rfl
  · simp [step, applyTempBC, tempMask, tempBC]

/-- Claim C9 as amended: the step performs no entry validation; for every
dt, including non-positive ones, and every field contents, including
out-of-range mass fractions and negative density or temperature, it
executes the full sequence and returns the constructed state, with age
advanced by dt and the reaction-rate fields carried over. -/
theorem C9_no_entry_validation (c : Collab) (fluid : SpFluid)
    (rd_array : Rough) (res : Nat) (dt : ℚ) (gravity : ℚ × ℚ)
    (density_effects : List (CField → ℚ → CField))
    (velocity_effects : List (Vel → ℚ → Vel)) :
    (step c fluid rd_array res dt gravity density_effects
        velocity_effects).result.age = fluid.age + dt ∧
    (step c fluid rd_array res dt gravity density_effects
        velocity_effects).result.Wt = fluid.Wt ∧
    (step c fluid rd_array res dt gravity density_effects
        velocity_effects).result.Wkf = fluid.Wkf ∧
    (step c fluid rd_array res dt gravity density_effects
        velocity_effects).result.Wko = fluid.Wko :=
  ⟨rfl, rfl, rfl, rfl⟩

/-- Counterexample for C10: before the call the input state has no
solve_info record; after the call the very same input object carries one:
the step mutates the solve_info attribute of its input. -/
theorem C10_counterexample :
    fluid0.solve_info.isSome = false ∧
    (step trivialCollab fluid0 rough6 2 1 (0, 0) [] []).inputAfter.solve_info.isSome = true :=
  ⟨rfl, rfl⟩

/-- Claim C10 as amended: the call mutates exactly one attribute of the
input state, solve_info, setting it to the projection info record; every
other field of the input object is unchanged, and the returned state is
built by copy-with-overrides, carrying amp, eq, buoyancy_factor and rd
over unchanged. -/
theorem C10_input_mutated_only_solve_info (c : Collab) (fluid : SpFluid)
    (rd_array : Rough) (res : Nat) (dt : ℚ) (gravity : ℚ × ℚ)
    (density_effects : List (CField → ℚ → CField))
    (velocity_effects : List (Vel → ℚ → Vel)) :
    (step c fluid rd_array res dt gravity density_effects
        velocity_effects).inputAfter.velocity = fluid.velocity ∧
    (step c fluid rd_array res dt gravity density_effects
        velocity_effects).inputAfter.temperature = fluid.temperature ∧
    (step c fluid rd_array res dt gravity density_effects
        velocity_effects).inputAfter.density = fluid.density ∧
    (step c fluid rd_array res dt gravity density_effects
        velocity_effects).inputAfter.pressure = fluid.pressure ∧
    (step c fluid rd_array res dt gravity density_effects
        velocity_effects).inputAfter.rd = fluid.rd ∧
    (step c fluid rd_array res dt gravity density_effects
        velocity_effects).inputAfter.Yf = fluid.Yf ∧
    (step c fluid rd_array res dt gravity density_effects
        velocity_effects).inputAfter.Yo = fluid.Yo ∧
    (step c fluid rd_array res dt gravity density_effects
        velocity_effects).inputAfter.Wt = fluid.Wt ∧
    (step c fluid rd_array res dt gravity density_effects
        velocity_effects).inputAfter.Wkf = fluid.Wkf ∧
    (step c fluid rd_array res dt gravity density_effects
        velocity_effects).inputAfter.Wko = fluid.Wko ∧
    (step c fluid rd_array res dt gravity density_effects
        velocity_effects).inputAfter.amp = fluid.amp ∧
    (step c fluid rd_array res dt gravity density_effects
        velocity_effects).inputAfter.eq = fluid.eq ∧
    (step c fluid rd_array res dt gravity density_effects
        velocity_effects).inputAfter.buoyancy_factor = fluid.buoyancy_factor ∧
    (step c fluid rd_array res dt gravity density_effects
        velocity_effects).inputAfter.age = fluid.age ∧
    (step c fluid rd_array res dt gravity density_effects
        velocity_effects).inputAfter.solve_info.isSome = true ∧
    (step c fluid rd_array res dt gravity density_effects
        velocity_effects).result.amp = fluid.amp ∧
    (step c fluid rd_array res dt gravity density_effects
        velocity_effects).result.eq = fluid.eq ∧
    (step c fluid rd_array res dt gravity density_effects
        velocity_effects).result.buoyancy_factor = fluid.buoyancy_factor ∧
    (step c fluid rd_array res dt gravity density_effects
        velocity_effects).result.rd = fluid.rd :=
  ⟨rfl, rfl, rfl, rfl, rfl, rfl, rfl, rfl, rfl, rfl, rfl, rfl, rfl, rfl,
   rfl, rfl, rfl, rfl, rfl⟩
